import Mathlib

/-!
Verification development for the cleaning-shorts backend.

This file gives a shallow embedding of the two core components of the
repository — the content rotation engine (`src/lib/content.py`) and the
subscription state synchronizer (`src/lib/subscriptions.py`), together with
the subscription gate (`src/lib/auth.py`) and the `/content/today` route
(`src/api/routes/content.py`) — and proves properties about them.

Modelling conventions:
- The hosted relational store is a record of lists (`DB`), one list per table,
  in store order; a `.single()` point query is embedded as `List.find?`
  (first match), an `insert` as an append, an `update ... eq` as a map over
  the matching rows, a `delete ... eq/in_` as a filter.
- Machine timestamps are `Int` seconds since the Unix epoch; calendar dates
  are `Int` days since the Unix epoch.
- The payment processor (Stripe) is embedded as an oracle record
  (`StripeState`) answering the calls the code makes.
- Fallible operations return `Except`; since store writes are immediate
  (non-transactional), each stateful operation returns the post-state even
  on the error path.
-/

/-- A row of `content_templates` (see `SCHEMA_SQL` in `src/db/schema.py`).
Only the columns read by the engine are carried (`category` and
`created_at` are never consulted by the logic). -/
structure Template where
  id : Nat
  service_type : String
  script : String
  caption : String
  cta : String
  is_active : Bool
deriving DecidableEq

/-- A row of `daily_deliveries`. The `delivered_at` column is selected by
`get_todays_delivery` but never used, and the surrogate `id` is never
consulted; both are omitted. `delivery_date` is the calendar date in the
user's timezone, as days since the Unix epoch. -/
structure Delivery where
  user_id : String
  template_id : Nat
  delivery_date : Int
deriving DecidableEq

/-- A row of `profiles`: service type and IANA timezone for one user. -/
structure Profile where
  user_id : String
  service_type : String
  timezone : String
deriving DecidableEq

/-- A row of `users`: subscription state mutated by the synchronizer. -/
structure UserRow where
  id : String
  subscription_status : String
  stripe_customer_id : Option String
  stripe_subscription_id : Option String
  subscription_started_at : Option Int
  subscription_ends_at : Option Int
  refund_used : Bool
deriving DecidableEq

/-- A row of `refund_log` (audit trail appended by `request_refund`). -/
structure RefundLogEntry where
  user_id : String
  stripe_refund_id : Option String
  amount_cents : Nat
  reason : Option String
deriving DecidableEq

/-- The relational store: one list per table, in store order. -/
structure DB where
  users : List UserRow
  profiles : List Profile
  content_templates : List Template
  daily_deliveries : List Delivery
  refund_log : List RefundLogEntry
deriving DecidableEq

/-- What `GET /content/today` returns (`ContentResponse` in
`src/models/schemas.py`); `delivery_date` is kept as an epoch day. -/
structure ContentResponse where
  script : String
  caption : String
  cta : String
  delivery_date : Int
  can_regenerate : Bool
deriving DecidableEq

/-- The failures `generate_daily_content` can raise: the
`ValueError("No content templates available")` at the exhausted-catalog
check (the spec's `ContentUnavailable`), and the store's unique-constraint
violation (`UNIQUE(user_id, delivery_date)`) escaping the unguarded insert. -/
inductive ContentError where
  | contentUnavailable
  | uniqueViolation
deriving DecidableEq

/-- Embeds the IANA timezone database as consulted through `pytz`: the
UTC offset, in seconds, of each zone exercised by this development, at the
winter instants considered (January, when none of these zones observes
DST). Unlisted zones are treated as UTC. -/
def tzOffsetSeconds : String → Int
  | "America/New_York" => -18000
  | "America/Los_Angeles" => -28800
  | "Asia/Tokyo" => 32400
  | _ => 0

/-- Days since 1970-01-01 of the civil date y-m-d (proleptic Gregorian);
the standard civil-from-days inverse, used to name concrete dates. -/
def daysFromCivil (y m d : Int) : Int :=
  let yy : Int := if m ≤ 2 then y - 1 else y
  let era : Int := Int.fdiv yy 400
  let yoe : Int := yy - era * 400
  let mp : Int := Int.emod (m + 9) 12
  let doy : Int := Int.fdiv (153 * mp + 2) 5 + d - 1
  let doe : Int := yoe * 365 + Int.fdiv yoe 4 - Int.fdiv yoe 100 + doy
  era * 146097 + doe - 719468

/-- `ContentService.get_today_date`: `datetime.now(tz).date()`, i.e. the
calendar date (epoch day) of the current UTC instant shifted into the
user's zone. -/
def getTodayDate (timezone : String) (nowUtc : Int) : Int :=
  Int.fdiv (nowUtc + tzOffsetSeconds timezone) 86400

/-- `ContentService.get_user_timezone`: point query on `profiles`,
defaulting to `America/New_York` when no row exists. -/
def getUserTimezone (db : DB) (user_id : String) : String :=
  match db.profiles.find? (fun p => decide (p.user_id = user_id)) with
  | some p => p.timezone
  | none => "America/New_York"

/-- `ContentService.get_user_service_type`: point query on `profiles`,
defaulting to `deep_clean` when no row exists. (The code wraps the value
in the `ServiceType` enum; the store's CHECK constraint keeps it in range,
so the embedding carries the string.) -/
def getUserServiceType (db : DB) (user_id : String) : String :=
  match db.profiles.find? (fun p => decide (p.user_id = user_id)) with
  | some p => p.service_type
  | none => "deep_clean"

/-- `ContentService.get_todays_delivery`: return the existing delivery for
(user, today) with its template content verbatim, `none` otherwise. -/
def getTodaysDelivery (db : DB) (user_id : String) (nowUtc : Int) :
    Option ContentResponse :=
  match db.daily_deliveries.find?
      (fun d => decide (d.user_id = user_id ∧
        d.delivery_date = getTodayDate (getUserTimezone db user_id) nowUtc)) with
  | none => none
  | some d =>
    match db.content_templates.find? (fun t => decide (t.id = d.template_id)) with
    | none => none
    | some t =>
      some { script := t.script, caption := t.caption, cta := t.cta,
             delivery_date := getTodayDate (getUserTimezone db user_id) nowUtc,
             can_regenerate := false }

/-- Template ids already delivered to the user
(`daily_deliveries` filtered by `user_id`, projected to `template_id`). -/
def deliveredIds (db : DB) (user_id : String) : List Nat :=
  (db.daily_deliveries.filter (fun d => decide (d.user_id = user_id))).map
    (fun d => d.template_id)

/-- `ContentService._get_next_template`: first template of the user's
service type that is active and not among the user's delivered template
ids. (`limit(1)` with store-default ordering is embedded as the head of
the table in store order; excluding an empty id list is a no-op in both the
code and the embedding.) -/
def getNextTemplate (db : DB) (user_id : String) (service_type : String) :
    Option Template :=
  (db.content_templates.filter
      (fun t => decide (t.service_type = service_type ∧ t.is_active = true ∧
                        t.id ∉ deliveredIds db user_id))).head?

/-- `ContentService._reset_delivery_history`: delete the user's deliveries
whose template id belongs to a template of the given service type
(active or not); a no-op when that service type has no templates at all
(the code's `if template_ids:` guard). -/
def resetDeliveryHistory (db : DB) (user_id : String) (service_type : String) :
    DB :=
  let template_ids :=
    (db.content_templates.filter
        (fun t => decide (t.service_type = service_type))).map (fun t => t.id)
  if template_ids = [] then db
  else
    let kept := db.daily_deliveries.filter
      (fun d => decide (¬(d.user_id = user_id ∧ d.template_id ∈ template_ids)))
    { db with daily_deliveries := kept }

/-- The store insert into `daily_deliveries`: fails with the
unique-constraint violation on `(user_id, delivery_date)` when a row for
that pair already exists, otherwise appends the row. -/
def insertDelivery (db : DB) (d : Delivery) : Except ContentError DB :=
  if db.daily_deliveries.any
      (fun e => decide (e.user_id = d.user_id ∧ e.delivery_date = d.delivery_date))
  then Except.error ContentError.uniqueViolation
  else Except.ok { db with daily_deliveries := db.daily_deliveries ++ [d] }

/-- The record-and-return step of `generate_daily_content` (lines 116-129
of `src/lib/content.py`): insert the delivery row for the already-computed
`today` (unguarded: a unique violation propagates) and return the selected
template's content verbatim. -/
def insertAndRespond (db : DB) (user_id : String) (today : Int) (t : Template) :
    DB × Except ContentError ContentResponse :=
  match insertDelivery db
      { user_id := user_id, template_id := t.id, delivery_date := today } with
  | Except.error e => (db, Except.error e)
  | Except.ok db2 =>
    (db2, Except.ok { script := t.script, caption := t.caption, cta := t.cta,
                      delivery_date := today, can_regenerate := false })

/-- The tail of `ContentService.generate_daily_content` after the
existing-delivery check (lines 100-129 of `src/lib/content.py`): recompute
timezone, today and service type, select an unused template, reset and
retry once on exhaustion, raise on an empty or fully inactive pool, and
run the record-and-return step. Factored out so that an interleaving in
which another call commits between the check and this tail can be
expressed. -/
def generatePhase2 (db : DB) (user_id : String) (nowUtc : Int) :
    DB × Except ContentError ContentResponse :=
  match getNextTemplate db user_id (getUserServiceType db user_id) with
  | some t =>
    insertAndRespond db user_id
      (getTodayDate (getUserTimezone db user_id) nowUtc) t
  | none =>
    match getNextTemplate
        (resetDeliveryHistory db user_id (getUserServiceType db user_id))
        user_id (getUserServiceType db user_id) with
    | none =>
      (resetDeliveryHistory db user_id (getUserServiceType db user_id),
       Except.error ContentError.contentUnavailable)
    | some t =>
      insertAndRespond
        (resetDeliveryHistory db user_id (getUserServiceType db user_id))
        user_id (getTodayDate (getUserTimezone db user_id) nowUtc) t

/-- `ContentService.generate_daily_content`: return the existing delivery
for today if there is one, otherwise run the selection/insert tail. -/
def generateDailyContent (db : DB) (user_id : String) (nowUtc : Int) :
    DB × Except ContentError ContentResponse :=
  match getTodaysDelivery db user_id nowUtc with
  | some r => (db, Except.ok r)
  | none => generatePhase2 db user_id nowUtc

/-- Successive calls of the engine for one user at a list of instants,
threading the store. -/
def runDays (db : DB) (user_id : String) : List Int → DB
  | [] => db
  | nowUtc :: rest => runDays (generateDailyContent db user_id nowUtc).1 user_id rest

/-- A Stripe `customer.subscription.*` webhook event object, with the
fields the handlers read via `.get` (each may be absent). `cancel_at` is an
epoch-second timestamp. -/
structure SubscriptionEvent where
  customer : Option String
  status : Option String
  cancel_at : Option Int
deriving DecidableEq

/-- The `.eq("stripe_customer_id", customer).single()` lookup used by every
webhook handler; an event without a customer id matches no row. -/
def lookupUserByCustomer (db : DB) (customer : Option String) : Option UserRow :=
  match customer with
  | none => none
  | some cid =>
    db.users.find? (fun r => decide (r.stripe_customer_id = some cid))

/-- The `.update(fields).eq("id", uid)` store write: apply the field update
to every `users` row whose id matches. -/
def updateUserRows (db : DB) (uid : String) (f : UserRow → UserRow) : DB :=
  { db with users := db.users.map (fun r => if r.id = uid then f r else r) }

/-- The `status_map` of `SubscriptionService.handle_subscription_updated`:
`dict.get(status, "canceled")` over
`{active: active, past_due: past_due, canceled: canceled, unpaid: past_due,
trialing: trialing}`; an absent status also falls to the default. -/
def statusMap (status : Option String) : String :=
  match status with
  | none => "canceled"
  | some s =>
    if s = "active" then "active"
    else if s = "past_due" then "past_due"
    else if s = "canceled" then "canceled"
    else if s = "unpaid" then "past_due"
    else if s = "trialing" then "trialing"
    else "canceled"

/-- The `update_data` row edit of
`SubscriptionService.handle_subscription_updated`: set the mapped status,
and stamp `subscription_ends_at` from the event only when the mapped
status is `canceled` and the event carries a truthy `cancel_at` timestamp
(the code's `if cancel_at:` is Python truthiness: an absent timestamp and
the timestamp `0` both skip the stamp). -/
def updatedUpdate (e : SubscriptionEvent) (r : UserRow) : UserRow :=
  let ourStatus := statusMap e.status
  if ourStatus = "canceled" then
    match e.cancel_at with
    | some ca =>
      if ca ≠ 0 then
        { r with subscription_status := ourStatus,
                 subscription_ends_at := some ca }
      else { r with subscription_status := ourStatus }
    | none => { r with subscription_status := ourStatus }
  else { r with subscription_status := ourStatus }

/-- `SubscriptionService.handle_subscription_updated`: map the processor
status, locate the user by customer id (no-op when absent), and apply the
row edit above. -/
def handleSubscriptionUpdated (db : DB) (e : SubscriptionEvent) : DB :=
  match lookupUserByCustomer db e.customer with
  | none => db
  | some row => updateUserRows db row.id (updatedUpdate e)

/-- The row edit of `SubscriptionService.handle_subscription_deleted`:
force status `canceled` and stamp `subscription_ends_at = now` (the
code's `datetime.utcnow()`). -/
def deletedUpdate (nowUtc : Int) (r : UserRow) : UserRow :=
  { r with subscription_status := "canceled", subscription_ends_at := some nowUtc }

/-- `SubscriptionService.handle_subscription_deleted`: locate the user by
customer id (no-op when absent) and apply the row edit above. -/
def handleSubscriptionDeleted (db : DB) (e : SubscriptionEvent) (nowUtc : Int) :
    DB :=
  match lookupUserByCustomer db e.customer with
  | none => db
  | some row => updateUserRows db row.id (deletedUpdate nowUtc)

/-- `SubscriptionService._can_request_refund`: false once the one-time
refund is used or when no subscription start is recorded; otherwise the
current instant must be at most `refund_window_days` (in seconds) past the
start. -/
def canRequestRefund (windowDays : Int) (startedAt : Option Int)
    (refundUsed : Bool) (nowUtc : Int) : Bool :=
  if refundUsed then false
  else
    match startedAt with
    | none => false
    | some t => decide (nowUtc ≤ t + windowDays * 86400)

/-- A Stripe charge as returned by `stripe.Charge.list`. -/
structure Charge where
  id : String
  amount : Nat
deriving DecidableEq

/-- The payment processor as an oracle: the charge list it returns for a
customer key (most recent first; the code passes `limit=1` and reads the
head), and the refund id it mints when refunding a charge. -/
structure StripeState where
  chargesFor : Option String → List Charge
  refundIdFor : String → String

/-- Result dictionary of `SubscriptionService.request_refund`. -/
inductive RefundResult where
  | failure (error : String)
  | success (refund_id : String) (amount_cents : Nat)
deriving DecidableEq

/-- The row edit `request_refund` applies on success: status `canceled`,
`refund_used = true`, `subscription_ends_at = now`. -/
def refundUpdate (nowUtc : Int) (r : UserRow) : UserRow :=
  { r with subscription_status := "canceled", refund_used := true,
           subscription_ends_at := some nowUtc }

/-- `SubscriptionService.request_refund`: look the user up, check
eligibility, read the most recent charge, refund it, cancel immediately
(the processor-side `stripe.Subscription.delete` is an external call with
no store footprint), apply the row edit above, and append one refund-log
row. -/
def requestRefund (windowDays : Int) (db : DB) (st : StripeState)
    (user_id : String) (reason : Option String) (nowUtc : Int) :
    DB × RefundResult :=
  match db.users.find? (fun r => decide (r.id = user_id)) with
  | none => (db, RefundResult.failure "User not found")
  | some row =>
    if canRequestRefund windowDays row.subscription_started_at
        row.refund_used nowUtc = false then
      (db, RefundResult.failure "Not eligible for refund")
    else
      match st.chargesFor row.stripe_customer_id with
      | [] => (db, RefundResult.failure "No charges found")
      | charge :: _ =>
        let refundId := st.refundIdFor charge.id
        let db1 := updateUserRows db user_id (refundUpdate nowUtc)
        let db2 := { db1 with refund_log := db1.refund_log ++
          [{ user_id := user_id, stripe_refund_id := some refundId,
             amount_cents := charge.amount, reason := reason }] }
        (db2, RefundResult.success refundId charge.amount)

/-- `verify_subscription` in `src/lib/auth.py`: look the authenticated
user's row up; missing row or a status outside {active, trialing} rejects
with HTTP 402, otherwise the user passes through. -/
def verifySubscription (db : DB) (uid : String) : Except Nat String :=
  match db.users.find? (fun r => decide (r.id = uid)) with
  | none => Except.error 402
  | some row =>
    if row.subscription_status ∈ (["active", "trialing"] : List String) then
      Except.ok uid
    else Except.error 402

/-- The `GET /content/today` route: the subscription gate runs as a
dependency before any content logic; the handler's `except ValueError`
maps the exhausted-catalog error to HTTP 500, and an escaping store error
(the unique violation) also surfaces as a 500. -/
def contentEndpoint (db : DB) (uid : String) (nowUtc : Int) :
    DB × Except Nat ContentResponse :=
  match verifySubscription db uid with
  | Except.error c => (db, Except.error c)
  | Except.ok _ =>
    match generateDailyContent db uid nowUtc with
    | (db2, Except.ok r) => (db2, Except.ok r)
    | (db2, Except.error _) => (db2, Except.error 500)

instance {e a : Type} [DecidableEq e] [DecidableEq a] : DecidableEq (Except e a) := fun x y =>
  match x, y with
  | Except.error u, Except.error v =>
    if h : u = v then isTrue (by rw [h]) else isFalse (fun hc => by cases hc; exact h rfl)
  | Except.error _, Except.ok _ => isFalse (fun hc => by cases hc)
  | Except.ok _, Except.error _ => isFalse (fun hc => by cases hc)
  | Except.ok u, Except.ok v =>
    if h : u = v then isTrue (by rw [h]) else isFalse (fun hc => by cases hc; exact h rfl)

/-- Observable used in statements: the service type the first template with
the given id resolves to (the foreign key `template_id` is resolved against
`content_templates` in store order). -/
def templateServiceType (db : DB) (tid : Nat) : Option String :=
  (db.content_templates.find? (fun t => decide (t.id = tid))).map
    (fun t => t.service_type)

/-- Observable used in statements: the rotation pool, i.e. the active
templates of one service type, in store order. -/
def activePool (db : DB) (service_type : String) : List Template :=
  db.content_templates.filter
    (fun t => decide (t.service_type = service_type ∧ t.is_active = true))

/-- Invariant threaded through a multi-day run of the engine for one user
`u`, starting from a store whose `daily_deliveries` held no rows: the
catalog and profiles are untouched, every delivery row belongs to `u`, the
recorded dates are exactly the processed dates in order, no template id
repeats, and every recorded template comes from the user's rotation pool. -/
def RunInv (db0 s : DB) (u : String) (dates : List Int) : Prop :=
  s.content_templates = db0.content_templates ∧
  s.profiles = db0.profiles ∧
  (∀ d ∈ s.daily_deliveries, d.user_id = u) ∧
  s.daily_deliveries.map (fun d => d.delivery_date) = dates ∧
  (s.daily_deliveries.map (fun d => d.template_id)).Nodup ∧
  (∀ d ∈ s.daily_deliveries,
    ∃ t ∈ activePool db0 (getUserServiceType db0 u), t.id = d.template_id)

/-- A catalog of two active `deep_clean` templates, one New-York user with
no deliveries yet: the scenario for the concurrent-delivery race and for
multi-day rotation. -/
def dbRace : DB :=
  { users := [],
    profiles := [{ user_id := "u1", service_type := "deep_clean",
                   timezone := "America/New_York" }],
    content_templates :=
      [{ id := 1, service_type := "deep_clean", script := "s1", caption := "c1",
         cta := "a1", is_active := true },
       { id := 2, service_type := "deep_clean", script := "s2", caption := "c2",
         cta := "a2", is_active := true }],
    daily_deliveries := [], refund_log := [] }

/-- One user with an active subscription, a Stripe customer id and a
recorded subscription start: the scenario for the webhook and refund
theorems. -/
def dbSubRow : UserRow :=
  { id := "u1", subscription_status := "active",
    stripe_customer_id := some "cus_1",
    stripe_subscription_id := some "sub_1",
    subscription_started_at := some 1705000000,
    subscription_ends_at := none, refund_used := false }

def dbSub : DB :=
  { users := [dbSubRow],
    profiles := [], content_templates := [], daily_deliveries := [],
    refund_log := [] }

/-- A store in which user `u1` already received template 1 today
(epoch day 19736, i.e. 2024-01-14 in New York): the idempotence scenario. -/
def dbDelivered : DB :=
  { users := [],
    profiles := [{ user_id := "u1", service_type := "deep_clean",
                   timezone := "America/New_York" }],
    content_templates :=
      [{ id := 1, service_type := "deep_clean", script := "s1", caption := "c1",
         cta := "a1", is_active := true }],
    daily_deliveries := [{ user_id := "u1", template_id := 1,
                           delivery_date := 19736 }],
    refund_log := [] }

/-- A store whose catalog is empty: the exhausted-catalog scenario. -/
def dbEmptyCatalog : DB :=
  { users := [],
    profiles := [{ user_id := "u1", service_type := "deep_clean",
                   timezone := "America/New_York" }],
    content_templates := [], daily_deliveries := [], refund_log := [] }

/-- A payment-processor oracle with one 900-cent charge for every customer
key and refund ids echoing the charge id. -/
def stripeOne : StripeState :=
  { chargesFor := fun _ => [{ id := "ch_1", amount := 900 }],
    refundIdFor := fun c => c }

/-- The `customer.subscription.updated` event carrying processor status
`trialing` for customer `cus_1`. -/
def evTrialing : SubscriptionEvent :=
  { customer := some "cus_1", status := some "trialing", cancel_at := none }

/-- The `customer.subscription.deleted` event for customer `cus_1`. -/
def evDeleted : SubscriptionEvent :=
  { customer := some "cus_1", status := none, cancel_at := none }

/-- A `customer.subscription.updated` event carrying processor status
`canceled` and a cancellation timestamp. -/
def evCanceledAt : SubscriptionEvent :=
  { customer := some "cus_1", status := some "canceled",
    cancel_at := some 1706000000 }

lemma getUserTimezone_congr {s db : DB} (u : String) (h : s.profiles = db.profiles) :
    getUserTimezone s u = getUserTimezone db u := by
  unfold getUserTimezone; rw [h]

lemma getUserServiceType_congr {s db : DB} (u : String) (h : s.profiles = db.profiles) :
    getUserServiceType s u = getUserServiceType db u := by
  unfold getUserServiceType; rw [h]

lemma find?_map_of_pred_eq {α : Type} (g : α → α) (p : α → Bool)
    (h : ∀ a, p (g a) = p a) (l : List α) :
    (l.map g).find? p = (l.find? p).map g := by
  rw [List.find?_map]
  have hpg : p ∘ g = p := funext h
  rw [hpg]

lemma find?_updateUserRows (db : DB) (uid : String) (f : UserRow → UserRow)
    (p : UserRow → Bool) (hp : ∀ r, p (if r.id = uid then f r else r) = p r) :
    (updateUserRows db uid f).users.find? p =
      (db.users.find? p).map (fun r => if r.id = uid then f r else r) := by
  unfold updateUserRows
  exact find?_map_of_pred_eq _ p hp _

/-- C9: the delivery date used by the engine is the calendar date of the
current instant in the user's IANA timezone, not the server/UTC date: at
2024-01-15T03:00:00Z (epoch second 1705287600), New York and Los Angeles
users compute 2024-01-14, a Tokyo user computes 2024-01-15, the UTC date
differs from New York's, and the engine stamps the generated content with
the user-timezone date. -/
theorem today_follows_user_timezone :
    getTodayDate "America/New_York" 1705287600 = daysFromCivil 2024 1 14 ∧
    getTodayDate "America/Los_Angeles" 1705287600 = daysFromCivil 2024 1 14 ∧
    getTodayDate "Asia/Tokyo" 1705287600 = daysFromCivil 2024 1 15 ∧
    getTodayDate "UTC" 1705287600 = daysFromCivil 2024 1 15 ∧
    getTodayDate "America/New_York" 1705287600 ≠ getTodayDate "UTC" 1705287600 ∧
    (generateDailyContent dbRace "u1" 1705287600).2 =
      Except.ok { script := "s1", caption := "c1", cta := "a1",
                  delivery_date := daysFromCivil 2024 1 14,
                  can_regenerate := false } := by
  decide

/-- C1 (code bug): on the two-template store `dbRace`, both of two
concurrent calls for user `u1` on the same day pass the existing-delivery
check (`getTodaysDelivery` is `none` on the initial store); the winner
commits the delivery of template 1; the loser, resuming at the post-check
tail of `generate_daily_content` against the committed store, hits the
`UNIQUE(user_id, delivery_date)` violation on its insert, and since the
insert is unguarded the violation propagates to the caller instead of
being resolved by re-fetching the winning record. -/
theorem race_loser_surfaces_unique_violation :
    getTodaysDelivery dbRace "u1" 1705287600 = none ∧
    (generateDailyContent dbRace "u1" 1705287600).2 =
      Except.ok { script := "s1", caption := "c1", cta := "a1",
                  delivery_date := 19736, can_regenerate := false } ∧
    ((generateDailyContent dbRace "u1" 1705287600).1).daily_deliveries =
      [{ user_id := "u1", template_id := 1, delivery_date := 19736 }] ∧
    (generatePhase2 (generateDailyContent dbRace "u1" 1705287600).1 "u1"
        1705287600).2 = Except.error ContentError.uniqueViolation := by
  decide

/-- C4 counterexample: the processor status `trialing` is outside the four
statuses the claim enumerates, yet `handle_subscription_updated` maps it to
local `trialing`, not to the claimed default `canceled`. -/
theorem subscription_updated_trialing_cex :
    ("trialing" : String) ∉ (["active", "past_due", "unpaid", "canceled"] : List String) ∧
    statusMap (some "trialing") = "trialing" ∧
    (handleSubscriptionUpdated dbSub evTrialing).users =
      [{ id := "u1", subscription_status := "trialing",
         stripe_customer_id := some "cus_1",
         stripe_subscription_id := some "sub_1",
         subscription_started_at := some 1705000000,
         subscription_ends_at := none, refund_used := false }] ∧
    ("trialing" : String) ≠ "canceled" := by
  decide

lemma lookupUserByCustomer_updateUserRows (db : DB) (uid : String)
    (f : UserRow → UserRow)
    (hcust : ∀ r, (f r).stripe_customer_id = r.stripe_customer_id)
    (c : Option String) :
    lookupUserByCustomer (updateUserRows db uid f) c =
      (lookupUserByCustomer db c).map (fun r => if r.id = uid then f r else r) := by
  unfold lookupUserByCustomer
  cases c with
  | none => rfl
  | some cid =>
    unfold updateUserRows
    apply find?_map_of_pred_eq
    intro a
    by_cases h : a.id = uid <;> simp [h, hcust]

lemma updateUserRows_twice (db : DB) (uid : String) (f : UserRow → UserRow)
    (hidem : ∀ r, f (f r) = f r) (hid : ∀ r, (f r).id = r.id) :
    updateUserRows (updateUserRows db uid f) uid f = updateUserRows db uid f := by
  unfold updateUserRows
  simp only [List.map_map]
  have hgg : ((fun r => if r.id = uid then f r else r) ∘
      (fun r => if r.id = uid then f r else r)) =
      (fun r : UserRow => if r.id = uid then f r else r) := by
    funext r
    simp only [Function.comp_apply]
    by_cases h : r.id = uid
    · have h2 : (f r).id = uid := by rw [hid r]; exact h
      simp [h, h2, hidem r]
    · simp [h]
  rw [hgg]

lemma handleSubscriptionDeleted_of_lookup_none (db : DB) (e : SubscriptionEvent)
    (now : Int) (h : lookupUserByCustomer db e.customer = none) :
    handleSubscriptionDeleted db e now = db := by
  unfold handleSubscriptionDeleted; rw [h]

lemma handleSubscriptionDeleted_of_lookup_some (db : DB) (e : SubscriptionEvent)
    (now : Int) (row : UserRow)
    (h : lookupUserByCustomer db e.customer = some row) :
    handleSubscriptionDeleted db e now = updateUserRows db row.id (deletedUpdate now) := by
  unfold handleSubscriptionDeleted; rw [h]

/-- C3: applying the same `customer.subscription.deleted` event twice is
idempotent: the second application (a total function, so it raises no
error) leaves the store exactly as the first left it, and the affected
user's status is `canceled`. -/
theorem subscription_deleted_idempotent (db : DB) (e : SubscriptionEvent)
    (now : Int) :
    handleSubscriptionDeleted (handleSubscriptionDeleted db e now) e now =
      handleSubscriptionDeleted db e now ∧
    (∀ r, lookupUserByCustomer (handleSubscriptionDeleted db e now) e.customer =
        some r → r.subscription_status = "canceled") := by
  cases hl : lookupUserByCustomer db e.customer with
  | none =>
    have h1 := handleSubscriptionDeleted_of_lookup_none db e now hl
    refine ⟨by simp only [h1], ?_⟩
    intro r hr
    rw [h1, hl] at hr
    cases hr
  | some row =>
    have h1 := handleSubscriptionDeleted_of_lookup_some db e now row hl
    have h2 : lookupUserByCustomer (handleSubscriptionDeleted db e now) e.customer =
        some (deletedUpdate now row) := by
      rw [h1]
      rw [lookupUserByCustomer_updateUserRows db row.id (deletedUpdate now)
        (fun r => rfl) e.customer]
      rw [hl]
      simp [deletedUpdate]
    constructor
    · rw [handleSubscriptionDeleted_of_lookup_some _ e now _ h2]
      rw [show (deletedUpdate now row).id = row.id from rfl, h1]
      exact updateUserRows_twice db row.id (deletedUpdate now)
        (fun r => rfl) (fun r => rfl)
    · intro r hr
      rw [h2] at hr
      cases hr
      rfl

/-- C3 witness: the idempotence theorem instantiated on the concrete store
`dbSub` and the concrete `subscription.deleted` event, discharging the
lookup hypothesis of its second conjunct at the updated row. -/
theorem subscription_deleted_idempotent_witness :
    handleSubscriptionDeleted (handleSubscriptionDeleted dbSub evDeleted 1705300000)
        evDeleted 1705300000 =
      handleSubscriptionDeleted dbSub evDeleted 1705300000 ∧
    ({ id := "u1", subscription_status := "canceled",
       stripe_customer_id := some "cus_1", stripe_subscription_id := some "sub_1",
       subscription_started_at := some 1705000000,
       subscription_ends_at := some 1705300000,
       refund_used := false } : UserRow).subscription_status = "canceled" :=
  ⟨(subscription_deleted_idempotent dbSub evDeleted 1705300000).1,
   (subscription_deleted_idempotent dbSub evDeleted 1705300000).2 _ (by decide)⟩

lemma updatedUpdate_cust (e : SubscriptionEvent) (r : UserRow) :
    (updatedUpdate e r).stripe_customer_id = r.stripe_customer_id := by
  unfold updatedUpdate
  by_cases h : statusMap e.status = "canceled" <;> cases e.cancel_at <;>
    simp [h] <;> split_ifs <;> rfl

lemma updatedUpdate_status (e : SubscriptionEvent) (r : UserRow) :
    (updatedUpdate e r).subscription_status = statusMap e.status := by
  unfold updatedUpdate
  by_cases h : statusMap e.status = "canceled" <;> cases e.cancel_at <;>
    simp [h] <;> split_ifs <;> rfl

lemma handleSubscriptionUpdated_of_lookup_some (db : DB) (e : SubscriptionEvent)
    (row : UserRow) (h : lookupUserByCustomer db e.customer = some row) :
    handleSubscriptionUpdated db e = updateUserRows db row.id (updatedUpdate e) := by
  unfold handleSubscriptionUpdated; rw [h]

/-- C4 (amended): `handle_subscription_updated` maps the processor status
as active→active, past_due→past_due, unpaid→past_due, canceled→canceled,
trialing→trialing, and every other (or absent) status→canceled; the
located user's row is left as `updatedUpdate e row`, whose status is the
mapped status, whose `subscription_ends_at` is stamped from the event's
cancellation timestamp when the mapped status is `canceled` and that
timestamp is present and nonzero (the code's `if cancel_at:` truthiness
check), and is untouched when the mapped status is not `canceled`, when
the timestamp is the falsy `0`, or when it is absent. -/
theorem subscription_updated_mapping (db : DB) (e : SubscriptionEvent)
    (row : UserRow) (hrow : lookupUserByCustomer db e.customer = some row) :
    statusMap (some "active") = "active" ∧
    statusMap (some "past_due") = "past_due" ∧
    statusMap (some "unpaid") = "past_due" ∧
    statusMap (some "canceled") = "canceled" ∧
    statusMap (some "trialing") = "trialing" ∧
    statusMap none = "canceled" ∧
    (∀ s : String,
      s ∉ (["active", "past_due", "canceled", "unpaid", "trialing"] : List String) →
      statusMap (some s) = "canceled") ∧
    (lookupUserByCustomer (handleSubscriptionUpdated db e) e.customer =
      some (updatedUpdate e row)) ∧
    (updatedUpdate e row).subscription_status = statusMap e.status ∧
    (∀ ca, statusMap e.status = "canceled" → e.cancel_at = some ca → ca ≠ 0 →
      (updatedUpdate e row).subscription_ends_at = some ca) ∧
    (statusMap e.status ≠ "canceled" →
      (updatedUpdate e row).subscription_ends_at =
        row.subscription_ends_at) ∧
    (e.cancel_at = some 0 →
      (updatedUpdate e row).subscription_ends_at =
        row.subscription_ends_at) ∧
    (e.cancel_at = none →
      (updatedUpdate e row).subscription_ends_at =
        row.subscription_ends_at) := by
  refine ⟨rfl, rfl, rfl, rfl, rfl, rfl, ?_, ?_, updatedUpdate_status e row,
    ?_, ?_, ?_, ?_⟩
  · intro s hs
    simp only [List.mem_cons, List.not_mem_nil, or_false, not_or] at hs
    obtain ⟨h1, h2, h3, h4, h5⟩ := hs
    unfold statusMap
    simp [h1, h2, h3, h4, h5]
  · rw [handleSubscriptionUpdated_of_lookup_some db e row hrow]
    rw [lookupUserByCustomer_updateUserRows db row.id (updatedUpdate e)
      (updatedUpdate_cust e) e.customer]
    rw [hrow]
    simp
  · intro ca hcanc hca hnz
    unfold updatedUpdate
    simp [hcanc, hca, hnz]
  · intro hne
    unfold updatedUpdate
    cases e.cancel_at <;> simp [hne]
  · intro h0
    unfold updatedUpdate
    by_cases h : statusMap e.status = "canceled" <;> simp [h, h0]
  · intro hn
    unfold updatedUpdate
    by_cases h : statusMap e.status = "canceled" <;> simp [h, hn]

/-- C4 witness: the amended mapping theorem applied to the concrete store
`dbSub` and a concrete `canceled` event with a cancellation timestamp,
discharging the lookup and stamping hypotheses there. -/
theorem subscription_updated_mapping_witness :
    lookupUserByCustomer dbSub evCanceledAt.customer = some dbSubRow ∧
    lookupUserByCustomer (handleSubscriptionUpdated dbSub evCanceledAt)
      evCanceledAt.customer = some (updatedUpdate evCanceledAt dbSubRow) ∧
    (updatedUpdate evCanceledAt dbSubRow).subscription_ends_at = some 1706000000 :=
  ⟨by decide,
   (subscription_updated_mapping dbSub evCanceledAt dbSubRow (by decide)).2.2.2.2.2.2.2.1,
   (subscription_updated_mapping dbSub evCanceledAt dbSubRow (by decide)).2.2.2.2.2.2.2.2.2.1
     1706000000 (by decide) (by decide) (by decide)⟩

lemma mem_service_ids_iff (db : DB) (S : String) (tid : Nat)
    (hPK : (db.content_templates.map (fun t => t.id)).Nodup) :
    (tid ∈ (db.content_templates.filter
        (fun t => decide (t.service_type = S))).map (fun t => t.id)) ↔
    templateServiceType db tid = some S := by
  constructor
  · intro h
    simp only [List.mem_map, List.mem_filter, decide_eq_true_eq] at h
    obtain ⟨t, ⟨ht, hS⟩, hid⟩ := h
    unfold templateServiceType
    cases hf : db.content_templates.find? (fun t2 => decide (t2.id = tid)) with
    | none =>
      have hall := List.find?_eq_none.mp hf t ht
      simp [hid] at hall
    | some t0 =>
      have ht0 : t0 ∈ db.content_templates := List.mem_of_find?_eq_some hf
      have hid0 : t0.id = tid := by simpa using List.find?_some hf
      have hT : db.content_templates.Nodup := List.Nodup.of_map _ hPK
      have hinj := (List.nodup_map_iff_inj_on hT).mp hPK
      have heq : t0 = t := hinj t0 ht0 t ht (by rw [hid0, hid])
      simp [heq, hS]
  · intro h
    unfold templateServiceType at h
    cases hf : db.content_templates.find? (fun t2 => decide (t2.id = tid)) with
    | none => rw [hf] at h; cases h
    | some t0 =>
      rw [hf] at h
      have ht0 : t0 ∈ db.content_templates := List.mem_of_find?_eq_some hf
      have hid0 : t0.id = tid := by simpa using List.find?_some hf
      simp only [List.mem_map, List.mem_filter, decide_eq_true_eq]
      exact ⟨t0, ⟨ht0, by simpa using h⟩, hid0⟩

/-- C6: a pool reset for user `u` and service type `S` deletes exactly
`u`'s delivery rows whose template resolves to service type `S`: the
surviving `daily_deliveries` are precisely the original rows filtered by
"not (owned by `u` and of a template of type `S`)" — so `u`'s deliveries
under another service type, and every other user's deliveries, survive in
place — and no other table changes. -/
theorem reset_deletes_exactly_service_deliveries (db : DB) (u S : String)
    (hPK : (db.content_templates.map (fun t => t.id)).Nodup) :
    (resetDeliveryHistory db u S).users = db.users ∧
    (resetDeliveryHistory db u S).profiles = db.profiles ∧
    (resetDeliveryHistory db u S).content_templates = db.content_templates ∧
    (resetDeliveryHistory db u S).refund_log = db.refund_log ∧
    (resetDeliveryHistory db u S).daily_deliveries =
      db.daily_deliveries.filter (fun d =>
        decide (¬(d.user_id = u ∧
          templateServiceType db d.template_id = some S))) := by
  unfold resetDeliveryHistory
  by_cases hnil : ((db.content_templates.filter
      (fun t => decide (t.service_type = S))).map (fun t => t.id)) = []
  · rw [if_pos hnil]
    refine ⟨rfl, rfl, rfl, rfl, ?_⟩
    symm
    rw [List.filter_eq_self]
    intro d _
    simp only [decide_eq_true_eq]
    intro hcontra
    have := (mem_service_ids_iff db S d.template_id hPK).mpr hcontra.2
    rw [hnil] at this
    cases this
  · rw [if_neg hnil]
    refine ⟨rfl, rfl, rfl, rfl, ?_⟩
    apply List.filter_congr
    intro d _
    apply decide_eq_decide.mpr
    exact not_congr (and_congr_right
      (fun _ => mem_service_ids_iff db S d.template_id hPK))

/-- C6 witness: the reset frame theorem applied to the concrete store
`dbDelivered`, discharging the primary-key hypothesis there. -/
theorem reset_deletes_exactly_service_deliveries_witness :
    ((dbDelivered.content_templates.map (fun t => t.id)).Nodup) ∧
    (resetDeliveryHistory dbDelivered "u1" "deep_clean").daily_deliveries =
      dbDelivered.daily_deliveries.filter (fun d =>
        decide (¬(d.user_id = "u1" ∧
          templateServiceType dbDelivered d.template_id = some "deep_clean"))) :=
  ⟨by decide,
   (reset_deletes_exactly_service_deliveries dbDelivered "u1" "deep_clean"
     (by decide)).2.2.2.2⟩

lemma verifySubscription_of_find (db : DB) (u : String) (row : UserRow)
    (hf : db.users.find? (fun r => decide (r.id = u)) = some row) :
    verifySubscription db u =
      (if row.subscription_status ∈ (["active", "trialing"] : List String) then
        Except.ok u else Except.error 402) := by
  unfold verifySubscription
  rw [hf]

/-- C10: the subscription gate admits exactly the statuses `active` and
`trialing`: with such a status `verify_subscription` passes the user
through and the endpoint's outcome is the content stage's outcome; with
any other status, or with no `users` row at all, the endpoint rejects with
HTTP 402 and the store is untouched (no content logic runs). -/
theorem subscription_gate_admits_active_trialing (db : DB) (u : String)
    (now : Int) :
    (db.users.find? (fun r => decide (r.id = u)) = none →
      verifySubscription db u = Except.error 402 ∧
      contentEndpoint db u now = (db, Except.error 402)) ∧
    (∀ row, db.users.find? (fun r => decide (r.id = u)) = some row →
      ((row.subscription_status = "active" ∨ row.subscription_status = "trialing") →
        verifySubscription db u = Except.ok u ∧
        (contentEndpoint db u now).1 = (generateDailyContent db u now).1 ∧
        (∀ r, (generateDailyContent db u now).2 = Except.ok r →
          (contentEndpoint db u now).2 = Except.ok r)) ∧
      ((row.subscription_status ≠ "active" ∧ row.subscription_status ≠ "trialing") →
        verifySubscription db u = Except.error 402 ∧
        contentEndpoint db u now = (db, Except.error 402))) := by
  constructor
  · intro hf
    have hv : verifySubscription db u = Except.error 402 := by
      unfold verifySubscription; rw [hf]
    exact ⟨hv, by unfold contentEndpoint; rw [hv]⟩
  · intro row hf
    constructor
    · intro hs
      have hmem : row.subscription_status ∈ (["active", "trialing"] : List String) := by
        cases hs with
        | inl h => simp [h]
        | inr h => simp [h]
      have hv : verifySubscription db u = Except.ok u := by
        rw [verifySubscription_of_find db u row hf, if_pos hmem]
      refine ⟨hv, ?_, ?_⟩
      · unfold contentEndpoint
        rw [hv]
        rcases hg : generateDailyContent db u now with ⟨db2, res⟩
        cases res <;> simp
      · intro r hr
        unfold contentEndpoint
        rw [hv]
        rcases hg : generateDailyContent db u now with ⟨db2, res⟩
        rw [hg] at hr
        simp only at hr
        cases res with
        | error e => cases hr
        | ok r2 => rw [hr]
    · intro hs
      have hmem : row.subscription_status ∉ (["active", "trialing"] : List String) := by
        simp [hs.1, hs.2]
      have hv : verifySubscription db u = Except.error 402 := by
        rw [verifySubscription_of_find db u row hf, if_neg hmem]
      exact ⟨hv, by unfold contentEndpoint; rw [hv]⟩

/-- C10 witness: the gate theorem applied to the concrete store `dbSub`
(whose only user is `active`) and to a user with no row, discharging the
lookup and status hypotheses there. -/
theorem subscription_gate_admits_active_trialing_witness :
    verifySubscription dbSub "u1" = Except.ok "u1" ∧
    contentEndpoint dbSub "nobody" 0 = (dbSub, Except.error 402) :=
  ⟨((subscription_gate_admits_active_trialing dbSub "u1" 0).2 dbSubRow
      (by decide)).1 (Or.inl (by decide)) |>.1,
   ((subscription_gate_admits_active_trialing dbSub "nobody" 0).1 (by decide)).2⟩

lemma requestRefund_of_find (w : Int) (db : DB) (st : StripeState) (u : String)
    (reason : Option String) (now : Int) (row : UserRow)
    (hrow : db.users.find? (fun r => decide (r.id = u)) = some row) :
    requestRefund w db st u reason now =
      (if canRequestRefund w row.subscription_started_at row.refund_used now = false
       then (db, RefundResult.failure "Not eligible for refund")
       else
        match st.chargesFor row.stripe_customer_id with
        | [] => (db, RefundResult.failure "No charges found")
        | charge :: _ =>
          let db1 := updateUserRows db u (refundUpdate now)
          ({ db1 with refund_log := db1.refund_log ++
              [{ user_id := u,
                 stripe_refund_id := some (st.refundIdFor charge.id),
                 amount_cents := charge.amount, reason := reason }] },
           RefundResult.success (st.refundIdFor charge.id) charge.amount)) := by
  unfold requestRefund
  rw [hrow]

/-- C7: for a user with a recorded subscription start and at least one
charge, `request_refund` succeeds exactly when the one-time refund is
unused and `now` is at most `refund_window_days` past the start; with
`refund_used = true` it never succeeds, whatever the elapsed time; and on
success the user's row is left `canceled` with `refund_used = true` and
`subscription_ends_at = now`, and exactly one refund-log row for the user
is appended. -/
theorem refund_window_policy (w : Int) (db : DB) (st : StripeState) (u : String)
    (reason : Option String) (now t0 : Int) (row : UserRow)
    (hrow : db.users.find? (fun r => decide (r.id = u)) = some row)
    (hstart : row.subscription_started_at = some t0)
    (hcharge : st.chargesFor row.stripe_customer_id ≠ []) :
    ((∃ rid amt, (requestRefund w db st u reason now).2 =
        RefundResult.success rid amt) ↔
      (row.refund_used = false ∧ now ≤ t0 + w * 86400)) ∧
    (row.refund_used = true →
      ∀ rid amt, (requestRefund w db st u reason now).2 ≠
        RefundResult.success rid amt) ∧
    (∀ rid amt, (requestRefund w db st u reason now).2 =
        RefundResult.success rid amt →
      ∃ r2, (requestRefund w db st u reason now).1.users.find?
          (fun r => decide (r.id = u)) = some r2 ∧
        r2.subscription_status = "canceled" ∧ r2.refund_used = true ∧
        r2.subscription_ends_at = some now ∧
        ∃ entry, (requestRefund w db st u reason now).1.refund_log =
          db.refund_log ++ [entry] ∧ entry.user_id = u) := by
  have helig : canRequestRefund w row.subscription_started_at row.refund_used now =
      true ↔ (row.refund_used = false ∧ now ≤ t0 + w * 86400) := by
    rw [hstart]
    unfold canRequestRefund
    cases row.refund_used <;> simp
  have hrid : row.id = u := by
    have := List.find?_some hrow
    simpa using this
  have hun := requestRefund_of_find w db st u reason now row hrow
  cases hel : canRequestRefund w row.subscription_started_at row.refund_used now with
  | false =>
    have hres : requestRefund w db st u reason now =
        (db, RefundResult.failure "Not eligible for refund") := by
      rw [hun, if_pos hel]
    rw [hres]
    have hnotelig : ¬(row.refund_used = false ∧ now ≤ t0 + w * 86400) := by
      intro hc
      rw [helig.mpr hc] at hel
      cases hel
    refine ⟨?_, ?_, ?_⟩
    · constructor
      · rintro ⟨rid, amt, habs⟩
        cases habs
      · intro hc
        exact absurd hc hnotelig
    · intro _ rid amt habs
      cases habs
    · intro rid amt habs
      cases habs
  | true =>
    have helig2 := helig.mp hel
    cases hch : st.chargesFor row.stripe_customer_id with
    | nil => exact absurd hch hcharge
    | cons charge rest =>
      have hres : requestRefund w db st u reason now =
          ({ updateUserRows db u (refundUpdate now) with
             refund_log := (updateUserRows db u (refundUpdate now)).refund_log ++
               [{ user_id := u,
                  stripe_refund_id := some (st.refundIdFor charge.id),
                  amount_cents := charge.amount, reason := reason }] },
           RefundResult.success (st.refundIdFor charge.id) charge.amount) := by
        rw [hun, if_neg (by rw [hel]; intro hc; cases hc), hch]
      rw [hres]
      refine ⟨?_, ?_, ?_⟩
      · constructor
        · intro _
          exact helig2
        · intro _
          exact ⟨st.refundIdFor charge.id, charge.amount, rfl⟩
      · intro hru
        rw [hru] at helig2
        cases helig2.1
      · intro rid amt _
        have hfind := find?_updateUserRows db u (refundUpdate now)
          (fun r => decide (r.id = u))
          (by intro r; by_cases h : r.id = u <;> simp [h, refundUpdate])
        refine ⟨refundUpdate now row, ?_, rfl, rfl, rfl, ⟨_, rfl, rfl⟩⟩
        show (updateUserRows db u (refundUpdate now)).users.find?
          (fun r => decide (r.id = u)) = some (refundUpdate now row)
        rw [show (updateUserRows db u (refundUpdate now)).users =
          db.users.map (fun r => if r.id = u then refundUpdate now r else r) from rfl]
        rw [find?_map_of_pred_eq _ _
          (by intro r; by_cases h : r.id = u <;> simp [h, refundUpdate]) db.users]
        rw [hrow]
        simp [hrid]

/-- C7 witness: the refund policy theorem applied to the concrete store
`dbSub` and oracle `stripeOne` one second into the window, discharging the
lookup, start and charge hypotheses there. -/
theorem refund_window_policy_witness :
    dbSub.users.find? (fun r => decide (r.id = "u1")) = some dbSubRow ∧
    (∃ rid amt, (requestRefund 7 dbSub stripeOne "u1" none 1705000001).2 =
      RefundResult.success rid amt) :=
  ⟨by decide,
   (refund_window_policy 7 dbSub stripeOne "u1" none 1705000001 1705000000 dbSubRow
     (by decide) (by decide) (by decide)).1.mpr ⟨by decide, by decide⟩⟩

lemma find_delivery_some (db : DB) (u : String) (today : Int) (d : Delivery)
    (hd : d ∈ db.daily_deliveries) (hu : d.user_id = u)
    (hdate : d.delivery_date = today) :
    ∃ d0, db.daily_deliveries.find?
        (fun r => decide (r.user_id = u ∧ r.delivery_date = today)) = some d0 ∧
      d0.user_id = u ∧ d0.delivery_date = today ∧ d0 ∈ db.daily_deliveries := by
  cases hf : db.daily_deliveries.find?
      (fun r => decide (r.user_id = u ∧ r.delivery_date = today)) with
  | none =>
    have hall := List.find?_eq_none.mp hf d hd
    simp [hu, hdate] at hall
  | some d0 =>
    have hp := List.find?_some hf
    simp only [decide_eq_true_eq] at hp
    exact ⟨d0, rfl, hp.1, hp.2, List.mem_of_find?_eq_some hf⟩

lemma find_template_some (db : DB) (tid : Nat)
    (hex : ∃ t ∈ db.content_templates, t.id = tid) :
    ∃ t0, db.content_templates.find? (fun t => decide (t.id = tid)) = some t0 ∧
      t0.id = tid := by
  obtain ⟨t, ht, hid⟩ := hex
  cases hf : db.content_templates.find? (fun t2 => decide (t2.id = tid)) with
  | none =>
    have hall := List.find?_eq_none.mp hf t ht
    simp [hid] at hall
  | some t0 =>
    exact ⟨t0, rfl, by simpa using List.find?_some hf⟩

lemma getTodaysDelivery_eq_none (db : DB) (u : String) (now : Int)
    (h : ∀ d ∈ db.daily_deliveries, ¬(d.user_id = u ∧
      d.delivery_date = getTodayDate (getUserTimezone db u) now)) :
    getTodaysDelivery db u now = none := by
  unfold getTodaysDelivery
  have hf : db.daily_deliveries.find? (fun d => decide (d.user_id = u ∧
      d.delivery_date = getTodayDate (getUserTimezone db u) now)) = none := by
    rw [List.find?_eq_none]
    intro x hx
    simpa using h x hx
  rw [hf]

lemma getTodaysDelivery_of_finds (db : DB) (u : String) (now : Int)
    (d0 : Delivery) (t0 : Template)
    (hf : db.daily_deliveries.find? (fun r => decide (r.user_id = u ∧
      r.delivery_date = getTodayDate (getUserTimezone db u) now)) = some d0)
    (ht : db.content_templates.find? (fun t => decide (t.id = d0.template_id)) =
      some t0) :
    getTodaysDelivery db u now =
      some { script := t0.script, caption := t0.caption, cta := t0.cta,
             delivery_date := getTodayDate (getUserTimezone db u) now,
             can_regenerate := false } := by
  unfold getTodaysDelivery
  rw [hf]
  show ((match db.content_templates.find?
      (fun t => decide (t.id = d0.template_id)) with
    | none => none
    | some t =>
      some { script := t.script, caption := t.caption, cta := t.cta,
             delivery_date := getTodayDate (getUserTimezone db u) now,
             can_regenerate := false }) : Option ContentResponse) =
    some ({ script := t0.script, caption := t0.caption, cta := t0.cta,
            delivery_date := getTodayDate (getUserTimezone db u) now,
            can_regenerate := false } : ContentResponse)
  rw [ht]

lemma generate_of_existing (db : DB) (u : String) (now : Int)
    (r : ContentResponse) (h : getTodaysDelivery db u now = some r) :
    generateDailyContent db u now = (db, Except.ok r) := by
  unfold generateDailyContent
  rw [h]

lemma generate_of_none (db : DB) (u : String) (now : Int)
    (h : getTodaysDelivery db u now = none) :
    generateDailyContent db u now = generatePhase2 db u now := by
  unfold generateDailyContent
  rw [h]

/-- C2: once a delivery row exists for the user and the computed calendar
date, every further call whose instant lands on the same date returns the
winning row's template content verbatim — hence byte-identical script,
caption and cta on every repeat — and leaves the store exactly unchanged
(no delivery row is created or modified). -/
theorem repeated_calls_same_day_idempotent (db : DB) (u : String) (now : Int)
    (hFK : ∀ d ∈ db.daily_deliveries, ∃ t ∈ db.content_templates,
      t.id = d.template_id)
    (d : Delivery) (hd : d ∈ db.daily_deliveries) (hu : d.user_id = u)
    (hdate : d.delivery_date = getTodayDate (getUserTimezone db u) now) :
    ∃ d0 t0,
      db.daily_deliveries.find? (fun r => decide (r.user_id = u ∧
        r.delivery_date = getTodayDate (getUserTimezone db u) now)) = some d0 ∧
      db.content_templates.find? (fun t => decide (t.id = d0.template_id)) =
        some t0 ∧
      ∀ now2, getTodayDate (getUserTimezone db u) now2 =
          getTodayDate (getUserTimezone db u) now →
        generateDailyContent db u now2 =
          (db, Except.ok
            { script := t0.script, caption := t0.caption, cta := t0.cta,
              delivery_date := getTodayDate (getUserTimezone db u) now,
              can_regenerate := false }) := by
  obtain ⟨d0, hf0, hu0, hdate0, hmem0⟩ := find_delivery_some db u _ d hd hu hdate
  obtain ⟨t0, hft, _⟩ := find_template_some db d0.template_id (hFK d0 hmem0)
  refine ⟨d0, t0, hf0, hft, ?_⟩
  intro now2 heq
  have hf2 : db.daily_deliveries.find? (fun r => decide (r.user_id = u ∧
      r.delivery_date = getTodayDate (getUserTimezone db u) now2)) = some d0 := by
    rw [heq]; exact hf0
  have hgd := getTodaysDelivery_of_finds db u now2 d0 t0 hf2 hft
  rw [generate_of_existing db u now2 _ hgd, heq]

/-- C2 witness: the idempotence theorem applied to the concrete store
`dbDelivered` at an instant landing on the recorded date, discharging the
foreign-key and existing-row hypotheses there. -/
theorem repeated_calls_same_day_idempotent_witness :
    (∀ d ∈ dbDelivered.daily_deliveries, ∃ t ∈ dbDelivered.content_templates,
      t.id = d.template_id) ∧
    ∃ d0 t0,
      dbDelivered.daily_deliveries.find? (fun r => decide (r.user_id = "u1" ∧
        r.delivery_date = getTodayDate (getUserTimezone dbDelivered "u1")
          1705287600)) = some d0 ∧
      dbDelivered.content_templates.find?
        (fun t => decide (t.id = d0.template_id)) = some t0 ∧
      ∀ now2, getTodayDate (getUserTimezone dbDelivered "u1") now2 =
          getTodayDate (getUserTimezone dbDelivered "u1") 1705287600 →
        generateDailyContent dbDelivered "u1" now2 =
          (dbDelivered, Except.ok
            { script := t0.script, caption := t0.caption, cta := t0.cta,
              delivery_date := getTodayDate (getUserTimezone dbDelivered "u1")
                1705287600,
              can_regenerate := false }) :=
  ⟨by decide,
   repeated_calls_same_day_idempotent dbDelivered "u1" 1705287600 (by decide)
     { user_id := "u1", template_id := 1, delivery_date := 19736 }
     (by decide) (by decide) (by decide)⟩

lemma head?_mem {α : Type} {l : List α} {a : α} (h : l.head? = some a) : a ∈ l := by
  cases l with
  | nil => cases h
  | cons x xs =>
    cases h
    exact List.mem_cons_self _ _

lemma reset_templates (db : DB) (u S : String) :
    (resetDeliveryHistory db u S).content_templates = db.content_templates := by
  unfold resetDeliveryHistory
  by_cases h : ((db.content_templates.filter
      (fun t => decide (t.service_type = S))).map (fun t => t.id)) = []
  · rw [if_pos h]
  · rw [if_neg h]

lemma reset_profiles (db : DB) (u S : String) :
    (resetDeliveryHistory db u S).profiles = db.profiles := by
  unfold resetDeliveryHistory
  by_cases h : ((db.content_templates.filter
      (fun t => decide (t.service_type = S))).map (fun t => t.id)) = []
  · rw [if_pos h]
  · rw [if_neg h]

lemma reset_deliveries_sublist (db : DB) (u S : String) :
    (resetDeliveryHistory db u S).daily_deliveries.Sublist db.daily_deliveries := by
  unfold resetDeliveryHistory
  by_cases h : ((db.content_templates.filter
      (fun t => decide (t.service_type = S))).map (fun t => t.id)) = []
  · rw [if_pos h]
  · rw [if_neg h]
    exact List.filter_sublist _

lemma getNextTemplate_eq_none_iff (db : DB) (u S : String) :
    getNextTemplate db u S = none ↔ ∀ t ∈ db.content_templates,
      ¬(t.service_type = S ∧ t.is_active = true ∧ t.id ∉ deliveredIds db u) := by
  unfold getNextTemplate
  rw [List.head?_eq_none_iff, List.filter_eq_nil_iff]
  constructor
  · intro h t ht
    have := h t ht
    simpa using this
  · intro h t ht
    simpa using h t ht

lemma getNextTemplate_some_props (db : DB) (u S : String) (t : Template)
    (h : getNextTemplate db u S = some t) :
    t ∈ db.content_templates ∧ t.service_type = S ∧ t.is_active = true ∧
      t.id ∉ deliveredIds db u := by
  unfold getNextTemplate at h
  have hmem := head?_mem h
  have := List.mem_filter.mp hmem
  refine ⟨this.1, ?_⟩
  simpa using this.2

lemma getNextTemplate_isSome (db : DB) (u S : String) (t : Template)
    (ht : t ∈ db.content_templates) (hS : t.service_type = S)
    (hact : t.is_active = true) (hnd : t.id ∉ deliveredIds db u) :
    ∃ t2, getNextTemplate db u S = some t2 := by
  cases hh : getNextTemplate db u S with
  | none =>
    exact absurd ⟨hS, hact, hnd⟩ ((getNextTemplate_eq_none_iff db u S).mp hh t ht)
  | some t2 => exact ⟨t2, rfl⟩

lemma insertDelivery_ok (db : DB) (u : String) (today : Int) (tid : Nat)
    (hNoRec : ∀ d ∈ db.daily_deliveries,
      ¬(d.user_id = u ∧ d.delivery_date = today)) :
    insertDelivery db { user_id := u, template_id := tid,
                        delivery_date := today } =
      Except.ok { db with
                  daily_deliveries := db.daily_deliveries ++
                    [{ user_id := u, template_id := tid,
                       delivery_date := today }] } := by
  unfold insertDelivery
  rw [if_neg]
  intro hc
  rw [List.any_eq_true] at hc
  obtain ⟨d, hd, hp⟩ := hc
  exact hNoRec d hd (by simpa using hp)

lemma phase2_of_select_some (db : DB) (u : String) (now : Int) (t1 : Template)
    (h1 : getNextTemplate db u (getUserServiceType db u) = some t1) :
    generatePhase2 db u now =
      insertAndRespond db u (getTodayDate (getUserTimezone db u) now) t1 := by
  unfold generatePhase2
  rw [h1]

lemma phase2_of_select_none_some (db : DB) (u : String) (now : Int)
    (t2 : Template)
    (h1 : getNextTemplate db u (getUserServiceType db u) = none)
    (h2 : getNextTemplate
      (resetDeliveryHistory db u (getUserServiceType db u)) u
      (getUserServiceType db u) = some t2) :
    generatePhase2 db u now =
      insertAndRespond (resetDeliveryHistory db u (getUserServiceType db u)) u
        (getTodayDate (getUserTimezone db u) now) t2 := by
  unfold generatePhase2
  rw [h1, h2]

lemma insertAndRespond_of_ok (db : DB) (u : String) (today : Int)
    (t : Template) (db2 : DB)
    (hins : insertDelivery db { user_id := u, template_id := t.id,
                                delivery_date := today } = Except.ok db2) :
    insertAndRespond db u today t =
      (db2, Except.ok { script := t.script, caption := t.caption, cta := t.cta,
                        delivery_date := today, can_regenerate := false }) := by
  unfold insertAndRespond
  rw [hins]

lemma phase2_unavailable (db : DB) (u : String) (now : Int)
    (hNoActive : ∀ t ∈ db.content_templates,
      ¬(t.service_type = getUserServiceType db u ∧ t.is_active = true)) :
    generatePhase2 db u now =
      (resetDeliveryHistory db u (getUserServiceType db u),
       Except.error ContentError.contentUnavailable) := by
  have h1 : getNextTemplate db u (getUserServiceType db u) = none := by
    rw [getNextTemplate_eq_none_iff]
    intro t ht hc
    exact hNoActive t ht ⟨hc.1, hc.2.1⟩
  have h2 : getNextTemplate
      (resetDeliveryHistory db u (getUserServiceType db u)) u
      (getUserServiceType db u) = none := by
    rw [getNextTemplate_eq_none_iff]
    intro t ht hc
    rw [reset_templates] at ht
    exact hNoActive t ht ⟨hc.1, hc.2.1⟩
  unfold generatePhase2
  rw [h1, h2]

lemma phase2_ok (db : DB) (u : String) (now : Int)
    (hNoRec : ∀ d ∈ db.daily_deliveries, ¬(d.user_id = u ∧
      d.delivery_date = getTodayDate (getUserTimezone db u) now))
    (t : Template) (ht : t ∈ db.content_templates)
    (hS : t.service_type = getUserServiceType db u)
    (hact : t.is_active = true) :
    ∃ db2 r, generatePhase2 db u now = (db2, Except.ok r) := by
  cases h1 : getNextTemplate db u (getUserServiceType db u) with
  | some t1 =>
    have hins := insertDelivery_ok db u
      (getTodayDate (getUserTimezone db u) now) t1.id hNoRec
    exact ⟨_, _, by
      rw [phase2_of_select_some db u now t1 h1]
      exact insertAndRespond_of_ok db u _ t1 _ hins⟩
  | none =>
    have hSids : t.id ∈ ((db.content_templates.filter (fun t2 =>
        decide (t2.service_type = getUserServiceType db u))).map
        (fun t2 => t2.id)) := by
      simp only [List.mem_map, List.mem_filter, decide_eq_true_eq]
      exact ⟨t, ⟨ht, hS⟩, rfl⟩
    have hne : ((db.content_templates.filter (fun t2 =>
        decide (t2.service_type = getUserServiceType db u))).map
        (fun t2 => t2.id)) ≠ [] := List.ne_nil_of_mem hSids
    have hresetdel : (resetDeliveryHistory db u
        (getUserServiceType db u)).daily_deliveries =
        db.daily_deliveries.filter (fun d =>
          decide (¬(d.user_id = u ∧ d.template_id ∈
            ((db.content_templates.filter (fun t2 =>
              decide (t2.service_type = getUserServiceType db u))).map
              (fun t2 => t2.id))))) := by
      unfold resetDeliveryHistory
      rw [if_neg hne]
    have hnd : t.id ∉ deliveredIds
        (resetDeliveryHistory db u (getUserServiceType db u)) u := by
      intro hc
      unfold deliveredIds at hc
      simp only [List.mem_map, List.mem_filter, decide_eq_true_eq] at hc
      obtain ⟨d, ⟨hdmem, hdu⟩, hdid⟩ := hc
      rw [hresetdel] at hdmem
      have := (List.mem_filter.mp hdmem).2
      simp only [decide_eq_true_eq] at this
      exact this ⟨hdu, by rw [hdid]; exact hSids⟩
    obtain ⟨t2, h2⟩ := getNextTemplate_isSome
      (resetDeliveryHistory db u (getUserServiceType db u)) u
      (getUserServiceType db u) t (by rw [reset_templates]; exact ht) hS hact hnd
    have hNoRec2 : ∀ d ∈ (resetDeliveryHistory db u
        (getUserServiceType db u)).daily_deliveries,
        ¬(d.user_id = u ∧ d.delivery_date =
          getTodayDate (getUserTimezone db u) now) := by
      intro d hd
      exact hNoRec d ((reset_deliveries_sublist db u
        (getUserServiceType db u)).subset hd)
    have hins := insertDelivery_ok
      (resetDeliveryHistory db u (getUserServiceType db u)) u
      (getTodayDate (getUserTimezone db u) now) t2.id hNoRec2
    exact ⟨_, _, by
      rw [phase2_of_select_none_some db u now t2 h1 h2]
      exact insertAndRespond_of_ok _ u _ t2 _ hins⟩

/-- C8: `generate_daily_content` raises the exhausted-catalog error (the
`ValueError` realizing the spec's `ContentUnavailable`, after the reset
retry) exactly when no delivery exists for (user, today) and no active
template of the user's service type exists at all; in every other
situation it returns content without raising; and whenever it raises, the
resulting store's deliveries are a sublist of the original ones, so no new
delivery row was persisted. -/
theorem content_unavailable_iff (db : DB) (u : String) (now : Int)
    (hFK : ∀ d ∈ db.daily_deliveries, ∃ t ∈ db.content_templates,
      t.id = d.template_id) :
    ((generateDailyContent db u now).2 =
        Except.error ContentError.contentUnavailable ↔
      ((∀ d ∈ db.daily_deliveries, ¬(d.user_id = u ∧
          d.delivery_date = getTodayDate (getUserTimezone db u) now)) ∧
       (∀ t ∈ db.content_templates,
          ¬(t.service_type = getUserServiceType db u ∧ t.is_active = true)))) ∧
    (∀ e, (generateDailyContent db u now).2 = Except.error e →
      e = ContentError.contentUnavailable ∧
      (generateDailyContent db u now).1.daily_deliveries.Sublist
        db.daily_deliveries) := by
  by_cases hrec : ∀ d ∈ db.daily_deliveries, ¬(d.user_id = u ∧
      d.delivery_date = getTodayDate (getUserTimezone db u) now)
  · have hgen := generate_of_none db u now
      (getTodaysDelivery_eq_none db u now hrec)
    by_cases hact : ∀ t ∈ db.content_templates,
        ¬(t.service_type = getUserServiceType db u ∧ t.is_active = true)
    · have hp2 := phase2_unavailable db u now hact
      rw [hgen, hp2]
      constructor
      · exact iff_of_true rfl ⟨hrec, hact⟩
      · intro e he
        refine ⟨by cases he; rfl, ?_⟩
        exact reset_deliveries_sublist db u (getUserServiceType db u)
    · push_neg at hact
      obtain ⟨t, ht, hS, hA⟩ := hact
      obtain ⟨db2, r, hp2⟩ := phase2_ok db u now hrec t ht hS hA
      rw [hgen, hp2]
      constructor
      · apply iff_of_false
        · simp
        · intro hc
          exact hc.2 t ht ⟨hS, hA⟩
      · intro e he
        cases he
  · push_neg at hrec
    obtain ⟨d, hd, hu, hdate⟩ := hrec
    obtain ⟨d0, hf0, _, _, hmem0⟩ := find_delivery_some db u _ d hd hu hdate
    obtain ⟨t0, hft, _⟩ := find_template_some db d0.template_id (hFK d0 hmem0)
    have hgen := generate_of_existing db u now _
      (getTodaysDelivery_of_finds db u now d0 t0 hf0 hft)
    rw [hgen]
    constructor
    · apply iff_of_false
      · simp
      · intro hc
        exact hc.1 d hd ⟨hu, hdate⟩
    · intro e he
      cases he

/-- C8 witness: the error characterization applied to the concrete store
`dbEmptyCatalog` (no deliveries, empty catalog), discharging the
foreign-key hypothesis and the two emptiness conditions there. -/
theorem content_unavailable_iff_witness :
    (∀ d ∈ dbEmptyCatalog.daily_deliveries,
      ∃ t ∈ dbEmptyCatalog.content_templates, t.id = d.template_id) ∧
    (generateDailyContent dbEmptyCatalog "u1" 1705287600).2 =
      Except.error ContentError.contentUnavailable :=
  ⟨by decide,
   (content_unavailable_iff dbEmptyCatalog "u1" 1705287600 (by decide)).1.mpr
     ⟨by decide, by decide⟩⟩

lemma run_step (db0 : DB) (u : String) (s : DB) (dates : List Int) (now : Int)
    (hPK : ((activePool db0 (getUserServiceType db0 u)).map
      (fun t => t.id)).Nodup)
    (hinv : RunInv db0 s u dates)
    (hfresh : getTodayDate (getUserTimezone db0 u) now ∉ dates)
    (hroom : dates.length <
      (activePool db0 (getUserServiceType db0 u)).length) :
    RunInv db0 (generateDailyContent s u now).1 u
      (dates ++ [getTodayDate (getUserTimezone db0 u) now]) := by
  obtain ⟨hT, hP, hU, hD, hN, hM⟩ := hinv
  have htz : getUserTimezone s u = getUserTimezone db0 u :=
    getUserTimezone_congr u hP
  have hsvc : getUserServiceType s u = getUserServiceType db0 u :=
    getUserServiceType_congr u hP
  have hNoRec : ∀ d ∈ s.daily_deliveries, ¬(d.user_id = u ∧
      d.delivery_date = getTodayDate (getUserTimezone s u) now) := by
    intro d hd hc
    apply hfresh
    rw [← hD]
    rw [htz] at hc
    exact List.mem_map.mpr ⟨d, hd, hc.2⟩
  have hgen := generate_of_none s u now (getTodaysDelivery_eq_none s u now hNoRec)
  have hdeliv : deliveredIds s u =
      s.daily_deliveries.map (fun d => d.template_id) := by
    unfold deliveredIds
    have hfe : s.daily_deliveries.filter (fun d => decide (d.user_id = u)) =
        s.daily_deliveries :=
      List.filter_eq_self.mpr (fun a ha => by simp [hU a ha])
    rw [hfe]
  have hexists : ∃ t ∈ activePool db0 (getUserServiceType db0 u),
      t.id ∉ s.daily_deliveries.map (fun d => d.template_id) := by
    by_contra hcon
    push_neg at hcon
    have h1 : ((activePool db0 (getUserServiceType db0 u)).map
        (fun t => t.id)).toFinset ⊆
        (s.daily_deliveries.map (fun d => d.template_id)).toFinset := by
      intro a ha
      rw [List.mem_toFinset] at ha ⊢
      obtain ⟨t, ht, hta⟩ := List.mem_map.mp ha
      rw [← hta]
      exact hcon t ht
    have h2 := Finset.card_le_card h1
    rw [List.toFinset_card_of_nodup hPK, List.toFinset_card_of_nodup hN] at h2
    simp only [List.length_map] at h2
    have h3 : s.daily_deliveries.length = dates.length := by
      have := congrArg List.length hD
      simpa using this
    omega
  obtain ⟨tex, htex, hidx⟩ := hexists
  have htex2 := List.mem_filter.mp htex
  have htexS : tex.service_type = getUserServiceType db0 u ∧
      tex.is_active = true := by simpa using htex2.2
  have hnd : tex.id ∉ deliveredIds s u := by rw [hdeliv]; exact hidx
  obtain ⟨tch, hsel⟩ := getNextTemplate_isSome s u (getUserServiceType s u) tex
    (by rw [hT]; exact htex2.1) (by rw [hsvc]; exact htexS.1) htexS.2 hnd
  have hprops := getNextTemplate_some_props s u (getUserServiceType s u) tch hsel
  have hins := insertDelivery_ok s u (getTodayDate (getUserTimezone s u) now)
    tch.id hNoRec
  have hfinal : generateDailyContent s u now =
      ({ s with daily_deliveries := s.daily_deliveries ++
          [{ user_id := u, template_id := tch.id,
             delivery_date := getTodayDate (getUserTimezone s u) now }] },
       Except.ok { script := tch.script, caption := tch.caption,
                   cta := tch.cta,
                   delivery_date := getTodayDate (getUserTimezone s u) now,
                   can_regenerate := false }) := by
    rw [hgen, phase2_of_select_some s u now tch hsel]
    exact insertAndRespond_of_ok s u _ tch _ hins
  rw [hfinal]
  refine ⟨hT, hP, ?_, ?_, ?_, ?_⟩
  · intro d hd
    rw [List.mem_append] at hd
    cases hd with
    | inl h => exact hU d h
    | inr h =>
      simp only [List.mem_singleton] at h
      rw [h]
  · rw [List.map_append, hD]
    simp [htz]
  · rw [List.map_append, List.nodup_append]
    refine ⟨hN, List.nodup_singleton _, ?_⟩
    intro a ha hb
    simp only [List.map_cons, List.map_nil, List.mem_singleton] at hb
    rw [hb] at ha
    rw [hdeliv] at hprops
    exact hprops.2.2.2 ha
  · intro d hd
    rw [List.mem_append] at hd
    cases hd with
    | inl h => exact hM d h
    | inr h =>
      simp only [List.mem_singleton] at h
      rw [h]
      refine ⟨tch, ?_, rfl⟩
      apply List.mem_filter.mpr
      refine ⟨by rw [← hT]; exact hprops.1, ?_⟩
      simp only [decide_eq_true_eq]
      exact ⟨by rw [← hsvc]; exact hprops.2.1, hprops.2.2.1⟩

lemma runDays_inv (db0 : DB) (u : String)
    (hPK : ((activePool db0 (getUserServiceType db0 u)).map
      (fun t => t.id)).Nodup) :
    ∀ (nows : List Int) (s : DB) (dates : List Int),
      RunInv db0 s u dates →
      (dates ++ nows.map
        (fun n => getTodayDate (getUserTimezone db0 u) n)).Nodup →
      dates.length + nows.length ≤
        (activePool db0 (getUserServiceType db0 u)).length →
      RunInv db0 (runDays s u nows) u
        (dates ++ nows.map (fun n => getTodayDate (getUserTimezone db0 u) n)) := by
  intro nows
  induction nows with
  | nil =>
    intro s dates hinv hnd hlen
    simpa using hinv
  | cons now rest ih =>
    intro s dates hinv hnd hlen
    have hfresh : getTodayDate (getUserTimezone db0 u) now ∉ dates := by
      rw [List.nodup_append] at hnd
      intro hc
      apply hnd.2.2 hc
      simp
    have hroom : dates.length <
        (activePool db0 (getUserServiceType db0 u)).length := by
      simp only [List.length_cons] at hlen
      omega
    have hstep := run_step db0 u s dates now hPK hinv hfresh hroom
    have hnd2 : ((dates ++ [getTodayDate (getUserTimezone db0 u) now]) ++
        rest.map (fun n => getTodayDate (getUserTimezone db0 u) n)).Nodup := by
      rw [List.append_assoc]
      exact hnd
    have hlen2 : (dates ++ [getTodayDate (getUserTimezone db0 u) now]).length +
        rest.length ≤ (activePool db0 (getUserServiceType db0 u)).length := by
      simp only [List.length_append, List.length_singleton, List.length_cons,
        List.length_nil] at hlen ⊢
      omega
    have h2 := ih (generateDailyContent s u now).1
      (dates ++ [getTodayDate (getUserTimezone db0 u) now]) hstep hnd2 hlen2
    rw [List.append_assoc] at h2
    exact h2

/-- C5: starting from a store with no delivery rows, running the engine
for user `u` over instants whose computed calendar dates are pairwise
distinct, with at most as many days as there are active templates of `u`'s
service type, records exactly one delivery per day, each of an active
template of that service type, with no template id repeated; and when the
number of days equals the pool size, every active template of the service
type has been delivered once. -/
theorem no_repeats_until_exhaustion (db : DB) (u : String) (nows : List Int)
    (hPK : (db.content_templates.map (fun t => t.id)).Nodup)
    (hempty : db.daily_deliveries = [])
    (hnd : (nows.map (fun n => getTodayDate (getUserTimezone db u) n)).Nodup)
    (hlen : nows.length ≤
      (activePool db (getUserServiceType db u)).length) :
    (runDays db u nows).daily_deliveries.length = nows.length ∧
    ((runDays db u nows).daily_deliveries.map (fun d => d.template_id)).Nodup ∧
    (∀ d ∈ (runDays db u nows).daily_deliveries, d.user_id = u ∧
      ∃ t ∈ db.content_templates, t.id = d.template_id ∧
        t.service_type = getUserServiceType db u ∧ t.is_active = true) ∧
    (nows.length = (activePool db (getUserServiceType db u)).length →
      ∀ t ∈ db.content_templates, t.service_type = getUserServiceType db u →
        t.is_active = true →
        t.id ∈ (runDays db u nows).daily_deliveries.map
          (fun d => d.template_id)) := by
  have hPKpool : ((activePool db (getUserServiceType db u)).map
      (fun t => t.id)).Nodup :=
    List.Nodup.sublist ((List.filter_sublist _).map _) hPK
  have hinv0 : RunInv db db u [] := by
    refine ⟨rfl, rfl, ?_, ?_, ?_, ?_⟩ <;> simp [hempty]
  have hrun := runDays_inv db u hPKpool nows db [] hinv0
    (by simpa using hnd) (by simpa using hlen)
  obtain ⟨hT, hP, hU, hD, hN, hM⟩ := hrun
  have hlength : (runDays db u nows).daily_deliveries.length = nows.length := by
    have := congrArg List.length hD
    simpa using this
  refine ⟨hlength, hN, ?_, ?_⟩
  · intro d hd
    refine ⟨hU d hd, ?_⟩
    obtain ⟨t, ht, hid⟩ := hM d hd
    have hft := List.mem_filter.mp ht
    have hps : t.service_type = getUserServiceType db u ∧ t.is_active = true := by
      simpa using hft.2
    exact ⟨t, hft.1, hid, hps.1, hps.2⟩
  · intro hcard t ht hS hA
    have hsub : ((runDays db u nows).daily_deliveries.map
        (fun d => d.template_id)).toFinset ⊆
        ((activePool db (getUserServiceType db u)).map
          (fun t => t.id)).toFinset := by
      intro a ha
      rw [List.mem_toFinset] at ha ⊢
      obtain ⟨d, hd, hda⟩ := List.mem_map.mp ha
      obtain ⟨tp, htp, hpid⟩ := hM d hd
      rw [← hda, ← hpid]
      exact List.mem_map.mpr ⟨tp, htp, rfl⟩
    have hcards : ((activePool db (getUserServiceType db u)).map
        (fun t => t.id)).toFinset.card ≤
        ((runDays db u nows).daily_deliveries.map
          (fun d => d.template_id)).toFinset.card := by
      rw [List.toFinset_card_of_nodup hPKpool, List.toFinset_card_of_nodup hN]
      simp only [List.length_map]
      omega
    have hsets := Finset.eq_of_subset_of_card_le hsub hcards
    have htin : t.id ∈ ((activePool db (getUserServiceType db u)).map
        (fun t => t.id)).toFinset := by
      rw [List.mem_toFinset]
      apply List.mem_map.mpr
      refine ⟨t, ?_, rfl⟩
      apply List.mem_filter.mpr
      exact ⟨ht, by simp [hS, hA]⟩
    rw [← hsets, List.mem_toFinset] at htin
    exact htin

/-- C5 witness: the rotation theorem applied to the concrete two-template
store `dbRace` over two consecutive New-York days, discharging the key,
emptiness, distinct-date and pool-size hypotheses there. -/
theorem no_repeats_until_exhaustion_witness :
    (dbRace.content_templates.map (fun t => t.id)).Nodup ∧
    (runDays dbRace "u1" [1705287600, 1705374000]).daily_deliveries.length = 2 ∧
    ((runDays dbRace "u1" [1705287600, 1705374000]).daily_deliveries.map
      (fun d => d.template_id)).Nodup :=
  ⟨by decide,
   (no_repeats_until_exhaustion dbRace "u1" [1705287600, 1705374000]
     (by decide) (by decide) (by decide) (by decide)).1,
   (no_repeats_until_exhaustion dbRace "u1" [1705287600, 1705374000]
     (by decide) (by decide) (by decide) (by decide)).2.1⟩
